import Mathlib

/-!
Shallow embedding of `rcue` (src/main.rs), a single-pass USB telemetry
reader for a liquid-cooling controller, together with theorems checking
the natural-language specification against it.

The embedding models:
* `print_data` — the report decoder (Cursor + `read_u16::<LittleEndian>`
  with `unwrap_or_default`);
* `read_interrupt` — the interrupt read into a pre-zeroed 64-byte buffer;
* `open_device` — the VID/PID device search;
* `find_readable_endpoints` — the descriptor-tree walk;
* `runSession` — the `main` pipeline from the kernel-driver query to the
  teardown, over an oracle `World` that fixes the outcome of every USB
  transport call, recording the calls made as a trace of `Action`s.
-/

deriving instance DecidableEq for Except

namespace Rcue

/-- Bytes are modelled as natural numbers; device-supplied bytes are below
256, but no decoder result in this file depends on that bound. -/
abbrev Byte := Nat

/-! ### Report decoder (`print_data`, src/main.rs lines 190-224) -/

/-- Embedding of `rdr.set_position(pos)` followed by
`rdr.read_u16::<LittleEndian>().unwrap_or_default()` on a cursor over
`data`: when two bytes are available starting at `pos`, the little-endian
16-bit value `data[pos] | data[pos+1] << 8`; otherwise `read_exact` fails
with `UnexpectedEof` and `unwrap_or_default` yields 0. -/
def readU16LE (data : List Byte) (pos : Nat) : Nat :=
  if pos + 2 ≤ data.length then data.getD pos 0 + 256 * data.getD (pos + 1) 0
  else 0

/-- The five printed telemetry values. Temperature is a rational: `v as f32
/ 256.0` is exact for every 16-bit `v` (scaling by a power of two of a
value that fits the f32 mantissa), so ℚ models the f32 arithmetic
faithfully. -/
structure Output where
  temp : ℚ
  fan1 : Nat
  fan2 : Nat
  fan3 : Nat
  pump : Nat
  deriving DecidableEq, Repr

/-- Embedding of `print_data`: each field is read after an absolute
`set_position`, so the five reads are independent; the printed values are
temperature = raw/256 at offset 7, fan 1 at 15, fan 2 at 22, fan 3 at 43,
pump at 29. -/
def print_data (data : List Byte) : Output :=
  { temp := (readU16LE data 7 : ℚ) / 256
  , fan1 := readU16LE data 15
  , fan2 := readU16LE data 22
  , fan3 := readU16LE data 43
  , pump := readU16LE data 29 }

/-! ### Device locator (`open_device`, src/main.rs lines 54-79) -/

/-- One enumerated USB device, as seen by `open_device`: the outcome of
`device.device_descriptor()` (vendor id, product id) and of
`device.open()` (an abstract handle, modelled as a number). -/
structure USBDevice where
  descriptor : Except Nat (Nat × Nat)
  openResult : Except Nat Nat
  deriving DecidableEq, Repr

def VID : Nat := 0x1b1c

def PID : Nat := 0x0c22

/-- The `for device in devices.iter()` loop of `open_device`: a failing
descriptor read is skipped (`continue`); a matching descriptor is opened,
and a failing open is also skipped; the first match that opens is
returned together with its handle. -/
def open_device_loop (vid pid : Nat) : List USBDevice → Option (USBDevice × Nat)
  | [] => none
  | d :: rest =>
    match d.descriptor with
    | .error _ => open_device_loop vid pid rest
    | .ok (v, p) =>
      if v == vid && p == pid then
        match d.openResult with
        | .ok h => some (d, h)
        | .error _ => open_device_loop vid pid rest
      else open_device_loop vid pid rest

/-- Embedding of `open_device`: a failing `context.devices()` yields
`None`; otherwise the enumeration loop runs. -/
def open_device (devices : Except Nat (List USBDevice)) (vid pid : Nat) :
    Option (USBDevice × Nat) :=
  match devices with
  | .error _ => none
  | .ok l => open_device_loop vid pid l

/-- Spec-side predicate: the device descriptor reads successfully and
carries the target vendor/product ids. -/
def matchesIds (vid pid : Nat) (d : USBDevice) : Bool :=
  match d.descriptor with
  | .ok (v, p) => v == vid && p == pid
  | .error _ => false

/-- Spec-side predicate: the device opens successfully. -/
def opensOk (d : USBDevice) : Bool :=
  match d.openResult with
  | .ok _ => true
  | .error _ => false

/-- The handle a successfully opening device yields. -/
def handleOf (d : USBDevice) : Nat :=
  match d.openResult with
  | .ok h => h
  | .error _ => 0

/-! ### Endpoint resolver (`find_readable_endpoints`, src/main.rs lines 115-141) -/

/-- The `Endpoint` struct of src/main.rs (field widths u8 are irrelevant
to every claim, so numbers are ℕ). -/
structure Endpoint where
  config : Nat
  iface : Nat
  setting : Nat
  address : Nat
  deriving DecidableEq, Repr

/-- One interface descriptor (one alternate-setting variant): its
interface number, setting number, and the addresses of its endpoint
descriptors in order. -/
structure InterfaceDesc where
  interfaceNumber : Nat
  settingNumber : Nat
  endpointAddresses : List Nat
  deriving DecidableEq, Repr

/-- One parsed configuration descriptor: its number and its interfaces,
each a list of interface-descriptor variants. -/
structure ConfigDesc where
  number : Nat
  interfaces : List (List InterfaceDesc)
  deriving DecidableEq, Repr

/-- The descriptor tree of one device: the outcome of
`device.device_descriptor()` reduced to `num_configurations`, and the
outcome of `device.config_descriptor(n)` for each index. -/
structure USBDeviceTree where
  numConfigurations : Except Nat Nat
  configDescriptor : Nat → Except Nat ConfigDesc

/-- The two inner `for` loops of `find_readable_endpoints` for one
parsed configuration: every interface, every interface-descriptor
variant, every endpoint descriptor, pushed onto the accumulator in
order. -/
def find_readable_endpoints_config (c : ConfigDesc) (acc : List Endpoint) :
    List Endpoint :=
  c.interfaces.foldl (fun acc2 iface =>
    iface.foldl (fun acc3 idesc =>
      acc3 ++ idesc.endpointAddresses.map (fun addr =>
        { config := c.number
          iface := idesc.interfaceNumber
          setting := idesc.settingNumber
          address := addr })) acc2) acc

/-- Embedding of `find_readable_endpoints`: a failing device-descriptor
read propagates (the `?`); each configuration index
`0..num_configurations` is parsed, a failing parse is skipped
(`continue`), and the nested loops push one `Endpoint` per endpoint
descriptor in enumeration order. -/
def find_readable_endpoints (dev : USBDeviceTree) : Except Nat (List Endpoint) :=
  dev.numConfigurations.map fun num =>
    (List.range num).foldl (fun acc n =>
      match dev.configDescriptor n with
      | .error _ => acc
      | .ok c => find_readable_endpoints_config c acc) []

/-- Spec-side description of the records one parsed configuration
contributes, written with `flatMap` in enumeration order. -/
def config_endpoints (c : ConfigDesc) : List Endpoint :=
  c.interfaces.flatMap fun iface =>
    iface.flatMap fun idesc =>
      idesc.endpointAddresses.map fun addr =>
        { config := c.number
          iface := idesc.interfaceNumber
          setting := idesc.settingNumber
          address := addr }

/-- Spec-side description of the whole enumeration: configurations in
index order, a failing parse contributing nothing. -/
def endpointsOfTree (dev : USBDeviceTree) (num : Nat) : List Endpoint :=
  (List.range num).flatMap fun n =>
    match dev.configDescriptor n with
    | .error _ => []
    | .ok c => config_endpoints c

/-! ### Session pipeline (`main`, src/main.rs lines 28-51, with
`configure_endpoint`, `set_idle`, `set_report`, `read_interrupt`
inlined at their call sites) -/

/-- The fixed 64-byte `set_report` payload (`DATA` in src/main.rs):
bytes 0x3f, 0x10, 0xff, then sixty 0x00 bytes, then 0x5b. -/
def DATA : List Byte := [0x3f, 0x10, 0xff] ++ List.replicate 60 0 ++ [0x5b]

/-- One observable USB transport call made by the pipeline, with the
arguments the code passes. -/
inductive Action where
  | queryKernelDriver : Nat → Action
  | detachKernelDriver : Nat → Action
  | setActiveConfiguration : Nat → Action
  | claimInterface : Nat → Action
  | setAlternateSetting : Nat → Nat → Action
  | writeControl : Nat → Nat → Nat → Nat → List Byte → Action
  | readInterruptXfer : Nat → Nat → Action
  | releaseInterface : Nat → Action
  | attachKernelDriver : Nat → Action
  deriving DecidableEq, Repr

/-- The `set_idle` control transfer: request type 0x21, request 0x0A,
value 0, index 0, empty payload. -/
def set_idle_action : Action := .writeControl 0x21 0x0A 0x0000 0x0000 []

/-- The `set_report` control transfer: request type 0x21, request 0x09,
value 0x0200, index 0, the fixed 64-byte payload. -/
def set_report_action : Action := .writeControl 0x21 0x09 0x0200 0x0000 DATA

/-- The buffer `read_interrupt` returns when the transport delivered
`received`: `let mut buf = [0u8; 64]` pre-zeroes 64 bytes, the transfer
overwrites the first `received.length` of them, and `buf.to_vec()`
returns all 64 regardless of the bytes-read count. -/
def fillBuf (received : List Byte) : List Byte :=
  (received ++ List.replicate 64 0).take 64

/-- Embedding of `read_interrupt`: on transport error the error is
returned; on success `.map(|_| buf.to_vec())` discards the bytes-read
count and returns the 64-byte buffer. -/
def read_interrupt (r : Except Nat (List Byte)) : Except Nat (List Byte) :=
  r.map fillBuf

/-- Oracle fixing the outcome of every transport call one run can make.
Errors are opaque numbers (the code never inspects them). The interrupt
`readResult` carries the bytes the device actually delivered. -/
structure World where
  kernelDriverActive : Except Nat Bool
  detachResult : Except Nat Unit
  setConfigResult : Except Nat Unit
  claimResult : Except Nat Unit
  setAltResult : Except Nat Unit
  setIdleResult : Except Nat Nat
  setReportResult : Except Nat Nat
  readResult : Except Nat (List Byte)
  releaseResult : Except Nat Unit
  attachResult : Except Nat Unit

/-- Outcome of one run: the `main` result, the decoded report if
`print_data` was reached, and the transport calls made, in order. -/
structure RunResult where
  result : Except Nat Unit
  printed : Option Output
  trace : List Action
  deriving DecidableEq, Repr

/-- The pipeline from `configure_endpoint` on (src/main.rs lines 39-51),
given the already-computed `has_kernel_driver` flag and the trace so
far: set the active configuration, claim the interface, set the
alternate setting (each `?`-fatal); `set_idle(..).ok()` — performed,
result discarded; `set_report(..)?`; `read_interrupt(..)?`;
`print_data(data)`; `release_interface(..)?`; and, iff the flag is set,
`attach_kernel_driver(..)?`. -/
def sessionBody (w : World) (ep : Endpoint) (hasKernel : Bool)
    (tr0 : List Action) : RunResult :=
  let tr1 := tr0 ++ [Action.setActiveConfiguration ep.config]
  match w.setConfigResult with
  | .error e => ⟨.error e, none, tr1⟩
  | .ok _ =>
    let tr2 := tr1 ++ [Action.claimInterface ep.iface]
    match w.claimResult with
    | .error e => ⟨.error e, none, tr2⟩
    | .ok _ =>
      let tr3 := tr2 ++ [Action.setAlternateSetting ep.iface ep.setting]
      match w.setAltResult with
      | .error e => ⟨.error e, none, tr3⟩
      | .ok _ =>
        let tr4 := tr3 ++ [set_idle_action, set_report_action]
        match w.setReportResult with
        | .error e => ⟨.error e, none, tr4⟩
        | .ok _ =>
          let tr5 := tr4 ++ [Action.readInterruptXfer ep.address 64]
          match read_interrupt w.readResult with
          | .error e => ⟨.error e, none, tr5⟩
          | .ok buf =>
            let out := print_data buf
            let tr6 := tr5 ++ [Action.releaseInterface ep.iface]
            match w.releaseResult with
            | .error e => ⟨.error e, some out, tr6⟩
            | .ok _ =>
              if hasKernel then
                let tr7 := tr6 ++ [Action.attachKernelDriver ep.iface]
                match w.attachResult with
                | .error e => ⟨.error e, some out, tr7⟩
                | .ok _ => ⟨.ok (), some out, tr7⟩
              else ⟨.ok (), some out, tr6⟩

/-- The whole session (src/main.rs lines 28-51): query
`kernel_driver_active`; on `Ok(true)` detach (`?`-fatal) and record the
flag as true; on `Ok(false)` or `Err(_)` record it as false with no
detach (the `_ => false` arm); then run the rest of the pipeline. -/
def runSession (w : World) (ep : Endpoint) : RunResult :=
  let tr0 := [Action.queryKernelDriver ep.iface]
  match w.kernelDriverActive with
  | .ok true =>
    let tr1 := tr0 ++ [Action.detachKernelDriver ep.iface]
    match w.detachResult with
    | .error e => ⟨.error e, none, tr1⟩
    | .ok _ => sessionBody w ep true tr1
  | .ok false => sessionBody w ep false tr0
  | .error _ => sessionBody w ep false tr0

/-- Whether a transport outcome is a success. -/
def okB {α : Type} : Except Nat α → Bool
  | .ok _ => true
  | .error _ => false

/-- Number of kernel-driver reattach calls in a trace. -/
def attachCount (tr : List Action) : Nat :=
  tr.countP fun a =>
    match a with
    | .attachKernelDriver _ => true
    | _ => false

/-- Number of interrupt-read transfers in a trace. -/
def readXferCount (tr : List Action) : Nat :=
  tr.countP fun a =>
    match a with
    | .readInterruptXfer _ _ => true
    | _ => false

/-! ### Concrete inputs used by witnesses and counterexamples -/

/-- A concrete endpoint selection. -/
def ep0 : Endpoint := { config := 1, iface := 0, setting := 0, address := 0x81 }

/-- A 45-byte report: temperature raw 0x0500 at offsets 7-8, fan 1 raw
0x03E8 at 15-16, fan 2 raw 0x012C at 22-23, pump raw 0x0064 at 29-30,
fan 3 raw 0x07D0 at 43-44. -/
def sampleReport : List Byte :=
  [0, 0, 0, 0, 0, 0, 0,
   0x00, 0x05,
   0, 0, 0, 0, 0, 0,
   0xE8, 0x03,
   0, 0, 0, 0, 0,
   0x2C, 0x01,
   0, 0, 0, 0, 0,
   0x64, 0x00,
   0, 0, 0, 0, 0, 0, 0, 0, 0, 0, 0, 0,
   0xD0, 0x07]

/-- A world in which every transport call succeeds and the device
delivers a full 64-byte report of zeros. -/
def allOkWorld : World :=
  { kernelDriverActive := .ok true
  , detachResult := .ok ()
  , setConfigResult := .ok ()
  , claimResult := .ok ()
  , setAltResult := .ok ()
  , setIdleResult := .ok 0
  , setReportResult := .ok 64
  , readResult := .ok (List.replicate 64 0)
  , releaseResult := .ok ()
  , attachResult := .ok () }

/-- Like `allOkWorld` but the set-report transfer fails. -/
def reportFailWorld : World := { allOkWorld with setReportResult := .error 7 }

/-- Like `allOkWorld` but the kernel-driver-active query itself errors. -/
def queryErrWorld : World := { allOkWorld with kernelDriverActive := .error 9 }

/-- A device whose product id does not match. -/
def devA : USBDevice := { descriptor := .ok (0x1b1c, 0x9999), openResult := .ok 1 }

/-- A device whose descriptor read fails. -/
def devB : USBDevice := { descriptor := .error 2, openResult := .ok 2 }

/-- A matching device that fails to open. -/
def devC : USBDevice := { descriptor := .ok (0x1b1c, 0x0c22), openResult := .error 3 }

/-- A matching device that opens with handle 4. -/
def devD : USBDevice := { descriptor := .ok (0x1b1c, 0x0c22), openResult := .ok 4 }

/-- A configuration with no interfaces. -/
def exConfig0 : ConfigDesc := { number := 3, interfaces := [] }

/-- A configuration with one interface, one variant, one endpoint. -/
def exConfig1 : ConfigDesc :=
  { number := 4
  , interfaces := [[{ interfaceNumber := 0, settingNumber := 0, endpointAddresses := [0x81] }]] }

/-- Two configurations: one empty, one with a single endpoint. -/
def exTree : USBDeviceTree :=
  { numConfigurations := .ok 2
  , configDescriptor := fun n =>
      if n = 0 then .ok exConfig0 else if n = 1 then .ok exConfig1 else .error 0 }

/-- Like `exTree` but configuration 0 fails to parse. -/
def exTreeF : USBDeviceTree :=
  { numConfigurations := .ok 2
  , configDescriptor := fun n =>
      if n = 0 then .error 6 else if n = 1 then .ok exConfig1 else .error 0 }

/-- A device tree with one configuration and no endpoints anywhere. -/
def exTreeE : USBDeviceTree :=
  { numConfigurations := .ok 1
  , configDescriptor := fun _ => .ok exConfig0 }

/-! ## Theorems -/

lemma readU16LE_eq (data : List Byte) (pos : Nat) :
    readU16LE data pos =
      if pos + 2 ≤ data.length then data.getD pos 0 + 256 * data.getD (pos + 1) 0
      else 0 := rfl

lemma readU16LE_take (data : List Byte) (n pos : Nat) (h : pos + 2 ≤ n) :
    readU16LE (data.take n) pos = readU16LE data pos := by
  have hlen : (data.take n).length = min n data.length := List.length_take n data
  unfold readU16LE
  rcases le_or_lt (pos + 2) data.length with hle | hlt
  · rw [if_pos (by omega), if_pos hle]
    have g1 : (data.take n).getD pos 0 = data.getD pos 0 := by
      rw [List.getD_eq_getElem?_getD, List.getD_eq_getElem?_getD,
        List.getElem?_take_of_lt (by omega)]
    have g2 : (data.take n).getD (pos + 1) 0 = data.getD (pos + 1) 0 := by
      rw [List.getD_eq_getElem?_getD, List.getD_eq_getElem?_getD,
        List.getElem?_take_of_lt (by omega)]
    rw [g1, g2]
  · rw [if_neg (by omega), if_neg (by omega)]

/-- Claim C1: for every report buffer of length at least 45, the decoder
reads little-endian 16-bit unsigned values at offsets 7 (temperature,
scaled by 1/256), 15 (fan 1), 22 (fan 2), 29 (pump) and 43 (fan 3); in
particular bytes 0x00, 0x05 at offsets 7-8 decode to temperature 5.00
and bytes 0xE8, 0x03 at offsets 15-16 decode to fan-1 speed 1000. -/
theorem print_data_fixed_offsets (data : List Byte) (h : 45 ≤ data.length) :
    (print_data data).temp = (data.getD 7 0 + 256 * data.getD 8 0 : ℚ) / 256 ∧
    (print_data data).fan1 = data.getD 15 0 + 256 * data.getD 16 0 ∧
    (print_data data).fan2 = data.getD 22 0 + 256 * data.getD 23 0 ∧
    (print_data data).pump = data.getD 29 0 + 256 * data.getD 30 0 ∧
    (print_data data).fan3 = data.getD 43 0 + 256 * data.getD 44 0 ∧
    (data.getD 7 0 = 0x00 → data.getD 8 0 = 0x05 → (print_data data).temp = 5) ∧
    (data.getD 15 0 = 0xE8 → data.getD 16 0 = 0x03 → (print_data data).fan1 = 1000) := by
  have h7 : (7 : Nat) + 2 ≤ data.length := by omega
  have h15 : (15 : Nat) + 2 ≤ data.length := by omega
  have h22 : (22 : Nat) + 2 ≤ data.length := by omega
  have h29 : (29 : Nat) + 2 ≤ data.length := by omega
  have h43 : (43 : Nat) + 2 ≤ data.length := by omega
  refine ⟨?_, ?_, ?_, ?_, ?_, ?_, ?_⟩
  · simp [print_data, readU16LE, h7]
  · simp [print_data, readU16LE, h15]
  · simp [print_data, readU16LE, h22]
  · simp [print_data, readU16LE, h29]
  · simp [print_data, readU16LE, h43]
  · intro h1 h2
    simp only [List.getD_eq_getElem?_getD] at h1 h2
    simp [print_data, readU16LE, h7, h1, h2]
    norm_num
  · intro h1 h2
    simp only [List.getD_eq_getElem?_getD] at h1 h2
    simp [print_data, readU16LE, h15, h1, h2]

/-- Witness for C1: the concrete 45-byte `sampleReport` decodes to
temperature 5 and fan-1 speed 1000. -/
theorem print_data_fixed_offsets_witness :
    45 ≤ sampleReport.length ∧
    (print_data sampleReport).temp = 5 ∧
    (print_data sampleReport).fan1 = 1000 :=
  ⟨by decide,
   (print_data_fixed_offsets sampleReport (by decide)).2.2.2.2.2.1
     (by decide) (by decide),
   (print_data_fixed_offsets sampleReport (by decide)).2.2.2.2.2.2
     (by decide) (by decide)⟩

/-- Claim C2: the decoder is total on every buffer: a field whose offset
plus two exceeds the buffer length decodes to zero, a field within the
buffer decodes to its little-endian 16-bit value, and truncating the
buffer to `n` bytes leaves every field with offset plus two at most `n`
unchanged (short buffers affect only the out-of-range fields). -/
theorem print_data_short_buffer (data : List Byte) (n : Nat) :
    ((print_data data).temp =
      if 9 ≤ data.length then (data.getD 7 0 + 256 * data.getD 8 0 : ℚ) / 256 else 0) ∧
    ((print_data data).fan1 =
      if 17 ≤ data.length then data.getD 15 0 + 256 * data.getD 16 0 else 0) ∧
    ((print_data data).fan2 =
      if 24 ≤ data.length then data.getD 22 0 + 256 * data.getD 23 0 else 0) ∧
    ((print_data data).pump =
      if 31 ≤ data.length then data.getD 29 0 + 256 * data.getD 30 0 else 0) ∧
    ((print_data data).fan3 =
      if 45 ≤ data.length then data.getD 43 0 + 256 * data.getD 44 0 else 0) ∧
    (9 ≤ n → (print_data (data.take n)).temp = (print_data data).temp) ∧
    (17 ≤ n → (print_data (data.take n)).fan1 = (print_data data).fan1) ∧
    (24 ≤ n → (print_data (data.take n)).fan2 = (print_data data).fan2) ∧
    (31 ≤ n → (print_data (data.take n)).pump = (print_data data).pump) ∧
    (45 ≤ n → (print_data (data.take n)).fan3 = (print_data data).fan3) := by
  refine ⟨?_, ?_, ?_, ?_, ?_, ?_, ?_, ?_, ?_, ?_⟩
  · by_cases h9 : 9 ≤ data.length
    · simp [print_data, readU16LE, h9]
    · simp [print_data, readU16LE, h9]
  · by_cases h17 : 17 ≤ data.length
    · simp [print_data, readU16LE, h17]
    · simp [print_data, readU16LE, h17]
  · by_cases h24 : 24 ≤ data.length
    · simp [print_data, readU16LE, h24]
    · simp [print_data, readU16LE, h24]
  · by_cases h31 : 31 ≤ data.length
    · simp [print_data, readU16LE, h31]
    · simp [print_data, readU16LE, h31]
  · by_cases h45 : 45 ≤ data.length
    · simp [print_data, readU16LE, h45]
    · simp [print_data, readU16LE, h45]
  · intro hn
    show (readU16LE (data.take n) 7 : ℚ) / 256 = (readU16LE data 7 : ℚ) / 256
    rw [readU16LE_take data n 7 (by omega)]
  · intro hn
    show readU16LE (data.take n) 15 = readU16LE data 15
    exact readU16LE_take data n 15 (by omega)
  · intro hn
    show readU16LE (data.take n) 22 = readU16LE data 22
    exact readU16LE_take data n 22 (by omega)
  · intro hn
    show readU16LE (data.take n) 29 = readU16LE data 29
    exact readU16LE_take data n 29 (by omega)
  · intro hn
    show readU16LE (data.take n) 43 = readU16LE data 43
    exact readU16LE_take data n 43 (by omega)

/-- Witness for C2: truncating `sampleReport` to 17 bytes keeps the
temperature and fan-1 fields and zeroes the out-of-range fan-2 field. -/
theorem print_data_short_buffer_witness :
    (print_data (sampleReport.take 17)).fan1 = 1000 ∧
    (print_data (sampleReport.take 17)).fan2 = 0 ∧
    (print_data (sampleReport.take 17)).temp = (print_data sampleReport).temp := by
  obtain ⟨_, _, _, _, _, htemp, _, _, _, _⟩ :=
    print_data_short_buffer sampleReport 17
  obtain ⟨_, f1, f2, _, _, _, _, _, _, _⟩ :=
    print_data_short_buffer (sampleReport.take 17) 17
  exact ⟨by rw [f1]; decide, by rw [f2]; decide, htemp (by decide)⟩

lemma open_device_loop_eq_find (vid pid : Nat) (l : List USBDevice) :
    open_device_loop vid pid l =
      (l.find? fun d => matchesIds vid pid d && opensOk d).map
        (fun d => (d, handleOf d)) := by
  induction l with
  | nil => rfl
  | cons d rest ih =>
    have hcpos : ∀ _ : (matchesIds vid pid d && opensOk d) = true,
        List.find? (fun x => matchesIds vid pid x && opensOk x) (d :: rest) = some d :=
      fun h => @List.find?_cons_of_pos _ (fun x => matchesIds vid pid x && opensOk x)
        d rest h
    have hcneg : ∀ _ : ¬(matchesIds vid pid d && opensOk d) = true,
        List.find? (fun x => matchesIds vid pid x && opensOk x) (d :: rest) =
          List.find? (fun x => matchesIds vid pid x && opensOk x) rest :=
      fun h => @List.find?_cons_of_neg _ (fun x => matchesIds vid pid x && opensOk x)
        d rest h
    cases hd : d.descriptor with
    | error e =>
      rw [hcneg (by simp [matchesIds, hd])]
      simpa [open_device_loop, hd] using ih
    | ok vp =>
      obtain ⟨v, p⟩ := vp
      by_cases hm : (v == vid && p == pid) = true
      · cases ho : d.openResult with
        | ok hdl =>
          rw [hcpos (by simp [matchesIds, opensOk, hd, ho, hm])]
          simp [open_device_loop, hd, ho, hm, handleOf]
        | error e =>
          rw [hcneg (by simp [matchesIds, opensOk, hd, ho])]
          simpa [open_device_loop, hd, ho, hm] using ih
      · rw [hcneg (by
          simp only [matchesIds, hd, Bool.and_eq_true, not_and]
          intro hv _
          exact hm (by simp [hv.1, hv.2]))]
        simpa [open_device_loop, hd, hm] using ih

/-- Claim C6: the device locator returns the first enumerated device
whose descriptor matches vendor id 0x1b1c and product id 0x0c22 and
which opens successfully, together with its handle; a candidate whose
descriptor read or open fails is skipped; a failing enumeration or the
absence of any opening match gives "not found". -/
theorem open_device_first_match (devices : List USBDevice) (e : Nat) :
    VID = 0x1b1c ∧ PID = 0x0c22 ∧
    open_device (.ok devices) VID PID =
      (devices.find? fun d => matchesIds VID PID d && opensOk d).map
        (fun d => (d, handleOf d)) ∧
    open_device (.error e) VID PID = none ∧
    ((∀ d ∈ devices, (matchesIds VID PID d && opensOk d) = false) →
      open_device (.ok devices) VID PID = none) := by
  refine ⟨rfl, rfl, open_device_loop_eq_find VID PID devices, rfl, ?_⟩
  intro hall
  have hn : devices.find? (fun d => matchesIds VID PID d && opensOk d) = none :=
    List.find?_eq_none.mpr (by intro x hx; simp [hall x hx])
  show open_device_loop VID PID devices = none
  rw [open_device_loop_eq_find, hn]
  rfl

/-- Witness for C6: among a non-matching device, a device with an
unreadable descriptor, a matching device that fails to open and a
matching device that opens, the locator returns the last one. -/
theorem open_device_first_match_witness :
    open_device (.ok [devA, devB, devC, devD]) VID PID = some (devD, 4) := by
  have h := (open_device_first_match [devA, devB, devC, devD] 5).2.2.1
  rw [h]
  decide

lemma foldl_append_eq {α β : Type} (f : α → List β) (l : List α) :
    ∀ acc : List β, l.foldl (fun a x => a ++ f x) acc = acc ++ l.flatMap f := by
  induction l with
  | nil => intro acc; simp
  | cons x xs ih => intro acc; simp [ih, List.append_assoc]

lemma find_readable_endpoints_config_eq (c : ConfigDesc) (acc : List Endpoint) :
    find_readable_endpoints_config c acc = acc ++ config_endpoints c := by
  unfold find_readable_endpoints_config config_endpoints
  have h1 : ∀ (iface : List InterfaceDesc) (acc2 : List Endpoint),
      iface.foldl (fun acc3 idesc =>
        acc3 ++ idesc.endpointAddresses.map (fun addr =>
          ({ config := c.number
             iface := idesc.interfaceNumber
             setting := idesc.settingNumber
             address := addr } : Endpoint))) acc2 =
        acc2 ++ iface.flatMap (fun idesc =>
          idesc.endpointAddresses.map (fun addr =>
            ({ config := c.number
               iface := idesc.interfaceNumber
               setting := idesc.settingNumber
               address := addr } : Endpoint))) :=
    fun iface acc2 => foldl_append_eq _ iface acc2
  simp only [h1]
  exact foldl_append_eq _ _ _

lemma find_readable_endpoints_eq (dev : USBDeviceTree) (num : Nat)
    (h : dev.numConfigurations = .ok num) :
    find_readable_endpoints dev = .ok (endpointsOfTree dev num) := by
  unfold find_readable_endpoints
  rw [h]
  have h2 : ∀ (acc : List Endpoint) (n : Nat),
      (match dev.configDescriptor n with
       | .error _ => acc
       | .ok c => find_readable_endpoints_config c acc) =
        acc ++ (match dev.configDescriptor n with
       | .error _ => []
       | .ok c => config_endpoints c) := by
    intro acc n
    cases dev.configDescriptor n with
    | error e => simp
    | ok c => simp [find_readable_endpoints_config_eq]
  simp only [Except.map, h2]
  rw [foldl_append_eq
    (fun n => match dev.configDescriptor n with
     | .error _ => []
     | .ok c => config_endpoints c) (List.range num) []]
  simp [endpointsOfTree]

/-- Claim C7: endpoint enumeration yields one record per
(configuration, interface-descriptor-variant, endpoint) triple in
enumeration order, skipping configurations that fail to parse; a tree
with an interface-less configuration and one single-endpoint
configuration yields exactly that one record; a tree with no endpoints
yields the empty list without error. -/
theorem find_readable_endpoints_spec (dev devF devE : USBDeviceTree)
    (num numE cn0 cn1 i s a eF : Nat) :
    (dev.numConfigurations = .ok num →
      find_readable_endpoints dev = .ok (endpointsOfTree dev num)) ∧
    (dev.numConfigurations = .ok 2 →
      dev.configDescriptor 0 = .ok ⟨cn0, []⟩ →
      dev.configDescriptor 1 = .ok ⟨cn1, [[⟨i, s, [a]⟩]]⟩ →
      find_readable_endpoints dev = .ok [⟨cn1, i, s, a⟩]) ∧
    (devF.numConfigurations = .ok 2 →
      devF.configDescriptor 0 = .error eF →
      devF.configDescriptor 1 = .ok ⟨cn1, [[⟨i, s, [a]⟩]]⟩ →
      find_readable_endpoints devF = .ok [⟨cn1, i, s, a⟩]) ∧
    (devE.numConfigurations = .ok numE →
      (∀ n, n < numE →
        ∃ c, devE.configDescriptor n = .ok c ∧ config_endpoints c = []) →
      find_readable_endpoints devE = .ok []) := by
  refine ⟨find_readable_endpoints_eq dev num, ?_, ?_, ?_⟩
  · intro h2 h0 h1
    rw [find_readable_endpoints_eq dev 2 h2]
    simp [endpointsOfTree, config_endpoints, List.range_succ, h0, h1]
  · intro h2 h0 h1
    rw [find_readable_endpoints_eq devF 2 h2]
    simp [endpointsOfTree, config_endpoints, List.range_succ, h0, h1]
  · intro hE hall
    rw [find_readable_endpoints_eq devE numE hE]
    simp only [endpointsOfTree, Except.ok.injEq]
    rw [List.flatMap_eq_nil_iff]
    intro n hn
    obtain ⟨c, hc, hce⟩ := hall n (List.mem_range.mp hn)
    rw [hc]
    exact hce

/-- Witness for C7 on the concrete trees: the two-configuration tree and
its parse-failure variant each yield the single endpoint record, and the
endpoint-less tree yields the empty list. -/
theorem find_readable_endpoints_spec_witness :
    find_readable_endpoints exTree = .ok [⟨4, 0, 0, 0x81⟩] ∧
    find_readable_endpoints exTreeF = .ok [⟨4, 0, 0, 0x81⟩] ∧
    find_readable_endpoints exTreeE = .ok [] := by
  obtain ⟨-, h2, h3, h4⟩ :=
    find_readable_endpoints_spec exTree exTreeF exTreeE 2 1 3 4 0 0 0x81 6
  refine ⟨h2 rfl rfl rfl, h3 rfl rfl rfl, h4 rfl ?_⟩
  intro n hn
  have hz : n = 0 := by omega
  subst hz
  exact ⟨exConfig0, rfl, rfl⟩

lemma sessionBody_report_mem (w : World) (ep : Endpoint) (hasKernel : Bool)
    (tr : List Action)
    (hc : w.setConfigResult = .ok ()) (hcl : w.claimResult = .ok ())
    (ha : w.setAltResult = .ok ()) :
    set_report_action ∈ (sessionBody w ep hasKernel tr).trace := by
  obtain ⟨kda, det, sc, cl, sa, si, sr, rr, rel, att⟩ := w
  subst hc hcl ha
  cases sr <;> cases rr <;> cases rel <;> cases hasKernel <;> cases att <;>
    simp [sessionBody, read_interrupt, Except.map]

lemma sessionBody_report_error (w : World) (ep : Endpoint) (hasKernel : Bool)
    (tr : List Action) (e : Nat)
    (hc : w.setConfigResult = .ok ()) (hcl : w.claimResult = .ok ())
    (ha : w.setAltResult = .ok ()) (hr : w.setReportResult = .error e) :
    sessionBody w ep hasKernel tr =
      ⟨.error e, none,
        tr ++ [Action.setActiveConfiguration ep.config,
          Action.claimInterface ep.iface,
          Action.setAlternateSetting ep.iface ep.setting,
          set_idle_action, set_report_action]⟩ := by
  obtain ⟨kda, det, sc, cl, sa, si, sr, rr, rel, att⟩ := w
  subst hc hcl ha hr
  simp [sessionBody]

lemma sessionBody_no_detach (w : World) (ep : Endpoint) (hasKernel : Bool)
    (tr : List Action) (i : Nat) (h : Action.detachKernelDriver i ∉ tr) :
    Action.detachKernelDriver i ∉ (sessionBody w ep hasKernel tr).trace := by
  obtain ⟨kda, det, sc, cl, sa, si, sr, rr, rel, att⟩ := w
  cases sc <;> cases cl <;> cases sa <;> cases sr <;> cases rr <;> cases rel <;>
    cases hasKernel <;> cases att <;>
    simp [sessionBody, read_interrupt, Except.map, set_idle_action,
      set_report_action, h]

lemma sessionBody_no_attach (w : World) (ep : Endpoint)
    (tr : List Action) (i : Nat) (h : Action.attachKernelDriver i ∉ tr) :
    Action.attachKernelDriver i ∉ (sessionBody w ep false tr).trace := by
  obtain ⟨kda, det, sc, cl, sa, si, sr, rr, rel, att⟩ := w
  cases sc <;> cases cl <;> cases sa <;> cases sr <;> cases rr <;> cases rel <;>
    cases att <;>
    simp [sessionBody, read_interrupt, Except.map, set_idle_action,
      set_report_action, h]

set_option maxHeartbeats 1000000 in
lemma sessionBody_printed (w : World) (ep : Endpoint) (hasKernel : Bool)
    (tr : List Action) (out : Output)
    (hp : (sessionBody w ep hasKernel tr).printed = some out) :
    ∃ received, read_interrupt w.readResult = .ok received ∧
      out = print_data received := by
  obtain ⟨kda, det, sc, cl, sa, si, sr, rr, rel, att⟩ := w
  cases sc <;> cases cl <;> cases sa <;> cases sr <;> cases rr <;> cases rel <;>
    cases hasKernel <;> cases att <;>
    simp_all [sessionBody, read_interrupt, Except.map]

lemma runSession_printed (w : World) (ep : Endpoint) (out : Output)
    (hp : (runSession w ep).printed = some out) :
    ∃ received, read_interrupt w.readResult = .ok received ∧
      out = print_data received := by
  obtain ⟨kda, det, sc, cl, sa, si, sr, rr, rel, att⟩ := w
  rcases kda with e | b
  · exact sessionBody_printed _ _ _ _ _ hp
  · cases b
    · exact sessionBody_printed _ _ _ _ _ hp
    · rcases det with e2 | u
      · exact absurd hp (by simp [runSession])
      · exact sessionBody_printed _ _ _ _ _ hp

set_option maxHeartbeats 1000000 in
lemma sessionBody_readXfer (w : World) (ep : Endpoint) (hasKernel : Bool)
    (tr : List Action) :
    readXferCount (sessionBody w ep hasKernel tr).trace ≤ readXferCount tr + 1 ∧
    (∀ a n, Action.readInterruptXfer a n ∈ (sessionBody w ep hasKernel tr).trace →
      Action.readInterruptXfer a n ∈ tr ∨ (a = ep.address ∧ n = 64)) := by
  obtain ⟨kda, det, sc, cl, sa, si, sr, rr, rel, att⟩ := w
  constructor
  · cases sc <;> cases cl <;> cases sa <;> cases sr <;> cases rr <;> cases rel <;>
      cases hasKernel <;> cases att <;>
      simp [sessionBody, read_interrupt, Except.map, readXferCount,
        set_idle_action, set_report_action, List.countP_append, List.countP_cons]
  · intro a n hm
    cases sc <;> cases cl <;> cases sa <;> cases sr <;> cases rr <;> cases rel <;>
      cases hasKernel <;> cases att <;>
      simp_all [sessionBody, read_interrupt, Except.map, set_idle_action,
        set_report_action]

lemma runSession_readXfer (w : World) (ep : Endpoint) :
    readXferCount (runSession w ep).trace ≤ 1 ∧
    (∀ a n, Action.readInterruptXfer a n ∈ (runSession w ep).trace →
      a = ep.address ∧ n = 64) := by
  obtain ⟨kda, det, sc, cl, sa, si, sr, rr, rel, att⟩ := w
  rcases kda with e | b
  · have h := sessionBody_readXfer ⟨.error e, det, sc, cl, sa, si, sr, rr, rel, att⟩
      ep false [Action.queryKernelDriver ep.iface]
    refine ⟨?_, ?_⟩
    · show readXferCount (sessionBody ⟨.error e, det, sc, cl, sa, si, sr, rr, rel, att⟩
        ep false [Action.queryKernelDriver ep.iface]).trace ≤ 1
      have h0 : readXferCount [Action.queryKernelDriver ep.iface] = 0 := rfl
      have h1 := h.1
      omega
    · intro a n hm
      rcases h.2 a n hm with hin | hgood
      · simp at hin
      · exact hgood
  · cases b
    · have h := sessionBody_readXfer ⟨.ok false, det, sc, cl, sa, si, sr, rr, rel, att⟩
        ep false [Action.queryKernelDriver ep.iface]
      refine ⟨?_, ?_⟩
      · show readXferCount (sessionBody ⟨.ok false, det, sc, cl, sa, si, sr, rr, rel, att⟩
          ep false [Action.queryKernelDriver ep.iface]).trace ≤ 1
        have h0 : readXferCount [Action.queryKernelDriver ep.iface] = 0 := rfl
        have h1 := h.1
        omega
      · intro a n hm
        rcases h.2 a n hm with hin | hgood
        · simp at hin
        · exact hgood
    · rcases det with e2 | u
      · refine ⟨?_, ?_⟩
        · show readXferCount [Action.queryKernelDriver ep.iface,
            Action.detachKernelDriver ep.iface] ≤ 1
          have h0 : readXferCount [Action.queryKernelDriver ep.iface,
            Action.detachKernelDriver ep.iface] = 0 := rfl
          omega
        · intro a n hm
          simp [runSession] at hm
      · have h := sessionBody_readXfer ⟨.ok true, .ok u, sc, cl, sa, si, sr, rr, rel, att⟩
          ep true [Action.queryKernelDriver ep.iface, Action.detachKernelDriver ep.iface]
        refine ⟨?_, ?_⟩
        · show readXferCount (sessionBody ⟨.ok true, .ok u, sc, cl, sa, si, sr, rr, rel, att⟩
            ep true [Action.queryKernelDriver ep.iface,
              Action.detachKernelDriver ep.iface]).trace ≤ 1
          have h0 : readXferCount [Action.queryKernelDriver ep.iface,
            Action.detachKernelDriver ep.iface] = 0 := rfl
          have h1 := h.1
          omega
        · intro a n hm
          rcases h.2 a n hm with hin | hgood
          · simp at hin
          · exact hgood

/-- Claim C8: a failing idle request is never fatal: the run is
identical — same result, same printed output, same transport calls — to
the run in which the idle request succeeded, and whenever configuration
succeeded the pipeline still reaches the set-report transfer. -/
theorem set_idle_failure_ignored (w : World) (ep : Endpoint) (e n : Nat) :
    runSession { w with setIdleResult := .error e } ep =
      runSession { w with setIdleResult := .ok n } ep ∧
    (w.setConfigResult = .ok () → w.claimResult = .ok () →
      w.setAltResult = .ok () →
      (w.kernelDriverActive = .ok true → w.detachResult = .ok ()) →
      set_report_action ∈
        (runSession { w with setIdleResult := .error e } ep).trace) := by
  obtain ⟨kda, det, sc, cl, sa, si, sr, rr, rel, att⟩ := w
  refine ⟨rfl, ?_⟩
  intro hc hcl ha hk
  rcases kda with e2 | b
  · exact sessionBody_report_mem ⟨.error e2, det, sc, cl, sa, .error e, sr, rr, rel, att⟩
      ep false [Action.queryKernelDriver ep.iface] hc hcl ha
  · cases b
    · exact sessionBody_report_mem ⟨.ok false, det, sc, cl, sa, .error e, sr, rr, rel, att⟩
        ep false [Action.queryKernelDriver ep.iface] hc hcl ha
    · have hdet : det = .ok () := hk rfl
      subst hdet
      exact sessionBody_report_mem ⟨.ok true, .ok (), sc, cl, sa, .error e, sr, rr, rel, att⟩
        ep true [Action.queryKernelDriver ep.iface, Action.detachKernelDriver ep.iface]
        hc hcl ha

/-- Witness for C8: on the all-success world, failing only the idle
request changes nothing, and the set-report transfer still happens. -/
theorem set_idle_failure_ignored_witness :
    runSession { allOkWorld with setIdleResult := .error 3 } ep0 =
      runSession { allOkWorld with setIdleResult := .ok 0 } ep0 ∧
    set_report_action ∈
      (runSession { allOkWorld with setIdleResult := .error 3 } ep0).trace := by
  have h := set_idle_failure_ignored allOkWorld ep0 3 0
  exact ⟨h.1, h.2 rfl rfl rfl (fun _ => rfl)⟩

/-- Claim C10: when the kernel-driver-active query itself errors, the
run is identical to one in which no driver was bound: the detached flag
is effectively false, no detach is attempted, the pipeline continues,
and no reattach happens at teardown. -/
theorem query_error_treated_as_absent (w : World) (ep : Endpoint) (e : Nat)
    (h : w.kernelDriverActive = .error e) :
    runSession w ep = runSession { w with kernelDriverActive := .ok false } ep ∧
    (∀ i, Action.detachKernelDriver i ∉ (runSession w ep).trace) ∧
    (∀ i, Action.attachKernelDriver i ∉ (runSession w ep).trace) := by
  obtain ⟨kda, det, sc, cl, sa, si, sr, rr, rel, att⟩ := w
  subst h
  refine ⟨rfl, ?_, ?_⟩
  · intro i
    exact sessionBody_no_detach ⟨.error e, det, sc, cl, sa, si, sr, rr, rel, att⟩
      ep false [Action.queryKernelDriver ep.iface] i (by simp)
  · intro i
    exact sessionBody_no_attach ⟨.error e, det, sc, cl, sa, si, sr, rr, rel, att⟩
      ep [Action.queryKernelDriver ep.iface] i (by simp)

/-- Witness for C10 on the concrete erroring-query world. -/
theorem query_error_treated_as_absent_witness :
    queryErrWorld.kernelDriverActive = .error 9 ∧
    runSession queryErrWorld ep0 =
      runSession { queryErrWorld with kernelDriverActive := .ok false } ep0 ∧
    Action.detachKernelDriver ep0.iface ∉ (runSession queryErrWorld ep0).trace ∧
    Action.attachKernelDriver ep0.iface ∉ (runSession queryErrWorld ep0).trace := by
  have h := query_error_treated_as_absent queryErrWorld ep0 9 rfl
  exact ⟨rfl, h.1, h.2.1 ep0.iface, h.2.2 ep0.iface⟩

/-- Claim C5: the set-report transfer always carries request type 0x21,
request 0x09, value 0x0200, index 0x0000 and the fixed 64-byte payload
(byte 0 = 0x3f, byte 1 = 0x10, byte 2 = 0xff, byte 63 = 0x5b, every
other byte zero); its failure is fatal: the error propagates as the
run's result, nothing is decoded, and no interrupt read occurs. -/
theorem set_report_fatal (w : World) (ep : Endpoint) (e : Nat)
    (hk : w.kernelDriverActive = .ok true → w.detachResult = .ok ())
    (hc : w.setConfigResult = .ok ()) (hcl : w.claimResult = .ok ())
    (ha : w.setAltResult = .ok ()) (hr : w.setReportResult = .error e) :
    DATA.length = 64 ∧
    DATA.getD 0 0 = 0x3f ∧ DATA.getD 1 0 = 0x10 ∧ DATA.getD 2 0 = 0xff ∧
    DATA.getD 63 0 = 0x5b ∧
    (∀ i, i < 63 → 3 ≤ i → DATA.getD i 0 = 0) ∧
    set_report_action = Action.writeControl 0x21 0x09 0x0200 0x0000 DATA ∧
    set_report_action ∈ (runSession w ep).trace ∧
    (runSession w ep).result = .error e ∧
    (runSession w ep).printed = none ∧
    (∀ a n, Action.readInterruptXfer a n ∉ (runSession w ep).trace) := by
  obtain ⟨kda, det, sc, cl, sa, si, sr, rr, rel, att⟩ := w
  subst hc hcl ha hr
  have key : ∃ tr0 : List Action,
      runSession ⟨kda, det, .ok (), .ok (), .ok (), si, .error e, rr, rel, att⟩ ep =
        ⟨.error e, none, tr0 ++
          [Action.setActiveConfiguration ep.config, Action.claimInterface ep.iface,
           Action.setAlternateSetting ep.iface ep.setting, set_idle_action,
           set_report_action]⟩ ∧
      (∀ a n, Action.readInterruptXfer a n ∉ tr0) := by
    rcases kda with e2 | b
    · refine ⟨[Action.queryKernelDriver ep.iface], ?_, by simp⟩
      exact sessionBody_report_error
        ⟨.error e2, det, .ok (), .ok (), .ok (), si, .error e, rr, rel, att⟩
        ep false [Action.queryKernelDriver ep.iface] e rfl rfl rfl rfl
    · cases b
      · refine ⟨[Action.queryKernelDriver ep.iface], ?_, by simp⟩
        exact sessionBody_report_error
          ⟨.ok false, det, .ok (), .ok (), .ok (), si, .error e, rr, rel, att⟩
          ep false [Action.queryKernelDriver ep.iface] e rfl rfl rfl rfl
      · have hdet : det = .ok () := hk rfl
        subst hdet
        refine ⟨[Action.queryKernelDriver ep.iface,
          Action.detachKernelDriver ep.iface], ?_, by simp⟩
        exact sessionBody_report_error
          ⟨.ok true, .ok (), .ok (), .ok (), .ok (), si, .error e, rr, rel, att⟩
          ep true [Action.queryKernelDriver ep.iface,
            Action.detachKernelDriver ep.iface] e rfl rfl rfl rfl
  obtain ⟨tr0, hrun, htr0⟩ := key
  refine ⟨by decide, by decide, by decide, by decide, by decide, by decide, rfl,
    ?_, ?_, ?_, ?_⟩
  · rw [hrun]
    simp
  · rw [hrun]
  · rw [hrun]
  · intro a n
    rw [hrun]
    simp [set_idle_action, set_report_action, htr0 a n]

/-- Witness for C5 on the concrete set-report-failure world. -/
theorem set_report_fatal_witness :
    reportFailWorld.setReportResult = .error 7 ∧
    (runSession reportFailWorld ep0).result = .error 7 ∧
    (runSession reportFailWorld ep0).printed = none := by
  have h := set_report_fatal reportFailWorld ep0 7 (fun _ => rfl) rfl rfl rfl rfl
  exact ⟨rfl, h.2.2.2.2.2.2.2.2.1, h.2.2.2.2.2.2.2.2.2.1⟩

/-- Claim C9: whenever the interrupt read succeeds, the decoder receives
a buffer of length exactly 64 — the received bytes followed by the
pre-zeroed remainder of the buffer; the bytes-read count is discarded,
so a partial device read shows up only as trailing zero bytes. -/
theorem decoder_sees_64_bytes (w : World) (ep : Endpoint)
    (received : List Byte) (out : Output)
    (hlen : received.length ≤ 64) (hr : w.readResult = .ok received) :
    read_interrupt w.readResult = .ok (fillBuf received) ∧
    (fillBuf received).length = 64 ∧
    (∀ i, i < 64 → (fillBuf received).getD i 0 =
      if i < received.length then received.getD i 0 else 0) ∧
    ((runSession w ep).printed = some out →
      out = print_data (fillBuf received)) := by
  refine ⟨?_, ?_, ?_, ?_⟩
  · rw [hr]
    rfl
  · simp only [fillBuf]
    rw [List.length_take, List.length_append, List.length_replicate]
    omega
  · intro i hi
    simp only [fillBuf]
    rw [List.getD_eq_getElem?_getD, List.getElem?_take_of_lt hi,
      List.getElem?_append]
    by_cases hil : i < received.length
    · rw [if_pos hil, if_pos hil, List.getD_eq_getElem?_getD]
    · rw [if_neg hil, if_neg hil, List.getElem?_replicate, if_pos (by omega)]
      rfl
  · intro hp
    obtain ⟨received2, hre, hout⟩ := runSession_printed w ep out hp
    rw [hr] at hre
    simp only [read_interrupt, Except.map] at hre
    cases hre
    exact hout

/-- Witness for C9: a 3-byte partial read yields a 64-byte buffer whose
head is the received data and whose tail is zero. -/
theorem decoder_sees_64_bytes_witness :
    (fillBuf [1, 2, 3]).length = 64 ∧
    (fillBuf [1, 2, 3]).getD 0 0 = 1 ∧
    (fillBuf [1, 2, 3]).getD 63 0 = 0 := by
  have h := decoder_sees_64_bytes { allOkWorld with readResult := .ok [1, 2, 3] }
    ep0 [1, 2, 3] (print_data (fillBuf [1, 2, 3])) (by decide) rfl
  refine ⟨h.2.1, ?_, ?_⟩
  · have h0 := h.2.2.1 0 (by decide)
    rw [h0]
    decide
  · have h63 := h.2.2.1 63 (by decide)
    rw [h63]
    decide

/-- Claim C3 (amended): when the kernel driver was detached, teardown
reattaches it exactly once if every following fatal step (configure,
claim, alternate setting, set-report, interrupt read, release) succeeds,
and zero times — the reattach is lost — as soon as any of them fails. -/
theorem reattach_iff_no_failure (w : World) (ep : Endpoint)
    (h1 : w.kernelDriverActive = .ok true) (h2 : w.detachResult = .ok ()) :
    attachCount (runSession w ep).trace =
      if okB w.setConfigResult && okB w.claimResult && okB w.setAltResult &&
         okB w.setReportResult && okB w.readResult && okB w.releaseResult
      then 1 else 0 := by
  obtain ⟨kda, det, sc, cl, sa, si, sr, rr, rel, att⟩ := w
  subst h1 h2
  cases sc <;> cases cl <;> cases sa <;> cases sr <;> cases rr <;> cases rel <;>
    cases att <;>
    simp [runSession, sessionBody, attachCount, read_interrupt, Except.map, okB,
      set_idle_action, set_report_action, List.countP_append, List.countP_cons]

/-- Witness for C3's amended statement: on the all-success world the
reattach happens exactly once. -/
theorem reattach_iff_no_failure_witness :
    allOkWorld.kernelDriverActive = .ok true ∧
    allOkWorld.detachResult = .ok () ∧
    attachCount (runSession allOkWorld ep0).trace = 1 := by
  have h := reattach_iff_no_failure allOkWorld ep0 rfl rfl
  refine ⟨rfl, rfl, ?_⟩
  rw [h]
  decide

/-- Counterexample to C3 as stated: with a successful kernel-driver
detach but a failing set-report transfer, the teardown performs no
reattach at all — the `?` operator returns from `main` before the
`attach_kernel_driver` call is reached. -/
theorem reattach_lost_counterexample :
    reportFailWorld.kernelDriverActive = .ok true ∧
    reportFailWorld.detachResult = .ok () ∧
    Action.detachKernelDriver ep0.iface ∈ (runSession reportFailWorld ep0).trace ∧
    attachCount (runSession reportFailWorld ep0).trace = 0 := by
  refine ⟨rfl, rfl, ?_, ?_⟩ <;> decide

/-- Claim C4 (amended): the reader issues at most one interrupt
transfer, always requesting 64 bytes at the endpoint address; on
success it returns the pre-zeroed 64-byte buffer — the received bytes
followed by zero padding — discarding the bytes-read count, so a
partial read is not distinguishable in the returned buffer; on transfer
error it returns the transport error unchanged, with no retry. -/
theorem read_interrupt_spec (received : List Byte) (e : Nat)
    (w : World) (ep : Endpoint) (h : received.length ≤ 64) :
    read_interrupt (.ok received) =
      .ok (received ++ List.replicate (64 - received.length) 0) ∧
    read_interrupt (.error e) = .error e ∧
    readXferCount (runSession w ep).trace ≤ 1 ∧
    (∀ a n, Action.readInterruptXfer a n ∈ (runSession w ep).trace →
      a = ep.address ∧ n = 64) := by
  refine ⟨?_, rfl, (runSession_readXfer w ep).1, (runSession_readXfer w ep).2⟩
  show Except.ok (fillBuf received) = _
  congr 1
  simp only [fillBuf]
  rw [List.take_append_eq_append_take, List.take_of_length_le h,
    List.take_replicate]
  have hm : min (64 - received.length) 64 = 64 - received.length := by omega
  rw [hm]

/-- Witness for C4's amended statement at a concrete 3-byte read. -/
theorem read_interrupt_spec_witness :
    read_interrupt (.ok [1, 2, 3]) = .ok ([1, 2, 3] ++ List.replicate 61 0) ∧
    readXferCount (runSession allOkWorld ep0).trace ≤ 1 := by
  have h := read_interrupt_spec [1, 2, 3] 5 allOkWorld ep0 (by decide)
  refine ⟨?_, h.2.2.1⟩
  rw [h.1]
  decide

/-- Counterexample to C4 as stated: a partial read of bytes 1, 2, 3 does
not return the three received bytes — it returns a 64-byte buffer — and
its result is identical to that of a full 64-byte read whose trailing
bytes are zero, so the partial read is not distinguishable. -/
theorem read_interrupt_counterexample :
    read_interrupt (.ok [1, 2, 3]) ≠ .ok [1, 2, 3] ∧
    read_interrupt (.ok [1, 2, 3]) = read_interrupt (.ok (fillBuf [1, 2, 3])) := by
  constructor <;> decide

end Rcue
